import Mathlib

/-!
Shallow embedding of the frogger game core (src/index.ts) and verification
of the specified properties of its state-transition engine.

Coordinates, velocities, radii, scores and times are JS numbers in the
source; the game only ever adds, subtracts, multiplies and compares them,
so they are modelled as rationals.  The one non-rational operation,
`Vec.len() = Math.sqrt(x*x + y*y)`, is only ever used in comparisons
`len() < c`; since `sqrt s < c ↔ 0 < c ∧ s < c*c` for `s ≥ 0`, the
comparison is embedded square-free and stays decidable.
-/

namespace Frogger

/-- Immutable 2D vector, from the source class `Vec`.  `new Vec(x)` leaves
`y` at its default `0`. -/
structure Vec where
  x : ℚ
  y : ℚ
deriving DecidableEq

/-- Source `Vec.add`. -/
def Vec.add (a b : Vec) : Vec := ⟨a.x + b.x, a.y + b.y⟩

/-- Source `Vec.scale`. -/
def Vec.scale (a : Vec) (s : ℚ) : Vec := ⟨a.x * s, a.y * s⟩

/-- Source `Vec.sub`, defined as in the source via `add` and `scale (-1)`. -/
def Vec.sub (a b : Vec) : Vec := a.add (b.scale (-1))

/-- Source `Vec.Zero`. -/
def Vec.zero : Vec := ⟨0, 0⟩

/-- Square-free embedding of the source comparison `v.len() < c`, where
`v.len() = Math.sqrt(v.x*v.x + v.y*v.y)`:
`sqrt (x*x+y*y) < c ↔ 0 < c ∧ x*x+y*y < c*c`. -/
def Vec.lenLt (v : Vec) (c : ℚ) : Bool :=
  decide (0 < c) && decide (v.x * v.x + v.y * v.y < c * c)

/-- Movable circular entity, from the source interface `IBody`. -/
structure Body where
  id : String
  createTime : ℚ
  viewType : String
  pos : Vec
  vel : Vec
  acc : Vec
  radius : ℚ
deriving DecidableEq

/-- Static rectangular terrain, from the source interface `IGround`. -/
structure Ground where
  id : String
  viewType : String
  pos : Vec
  width : ℚ
  height : ℚ
  createTime : ℚ
deriving DecidableEq

/-- Game state, from the source type `State`. -/
structure State where
  time : ℚ
  frog : Body
  cars : List Body
  planks : List Body
  river : Ground
  geese : List Body
  birds : List Body
  goals : List Body
  finalgoal : List Body
  exit : List Body
  objCount : ℚ
  gameOver : Bool
  points : ℚ
  highscore : ℚ
deriving DecidableEq

/-- Source constant `Constants.CanvasSize`. -/
def CanvasSize : ℚ := 600

/-- Source constant `Constants.StartInstanceRadius`. -/
def StartInstanceRadius : ℚ := 20

/-- Source constant `Constants.StartInstanceCount`. -/
def StartInstanceCount : Nat := 3

/-- Source constant `Constants.StartRows`. -/
def StartRows : Nat := 3

/-- Source constant `Constants.StartTime`. -/
def StartTime : ℚ := 0

/-- Source constant `Constants.ScorePoints`. -/
def ScorePoints : ℚ := 500

/-- Source constant `Constants.NumberGoal`. -/
def NumberGoal : Nat := 5

/-- Source constant `Constants.FinalScorePoints`. -/
def FinalScorePoints : ℚ := 1000

/-- Source factory `createCircle` (curried over view type, object id,
circle data and velocity in the source). -/
def createCircle (viewType : String) (oidId : String) (oidCreateTime : ℚ)
    (pos : Vec) (radius : ℚ) (vel : Vec) : Body :=
  { id := viewType ++ oidId
    createTime := oidCreateTime
    viewType := viewType
    pos := pos
    vel := vel
    acc := Vec.zero
    radius := radius }

/-- Source `createCar`. -/
def createCar := createCircle "car"

/-- Source `createPlank`. -/
def createPlank := createCircle "plank"

/-- Source `createGoose`. -/
def createGoose := createCircle "goose"

/-- Source `createBird`. -/
def createBird := createCircle "bird"

/-- Source `createFrog`. -/
def createFrog : Body :=
  { id := "frog"
    viewType := "frog"
    pos := ⟨CanvasSize / 2, CanvasSize - 50⟩
    vel := Vec.zero
    acc := Vec.zero
    radius := 20
    createTime := 0 }

/-- Source `createRiver`. -/
def createRiver : Ground :=
  { id := "river"
    viewType := "river"
    pos := ⟨CanvasSize / 2, CanvasSize - 50⟩
    width := CanvasSize
    height := CanvasSize / 4
    createTime := 0 }

/-- Source `createGoal`. -/
def createGoal (i : Nat) : Body :=
  { id := "goal" ++ toString i
    viewType := "goal"
    pos := ⟨100 * ((i : ℚ) + 1), 50⟩
    vel := Vec.zero
    acc := Vec.zero
    radius := 20
    createTime := 0 }

/-- Source `createFinalGoal`. -/
def createFinalGoal (i : Nat) : Body :=
  { id := "finalgoal" ++ toString i
    viewType := "finalgoal"
    pos := ⟨300 * ((i : ℚ) + 1), 50⟩
    vel := Vec.zero
    acc := Vec.zero
    radius := 20
    createTime := 0 }

/-- Source `speedDirections`: `new Vec(d == 'left' ? -1 * v : v)`, whose
second component defaults to `0`. -/
def speedDirections (v : ℚ) (d : String) : Vec :=
  ⟨if d = "left" then -1 * v else v, 0⟩

/-- Source `startCars`: 9 cars in three rows of differing lane y, speed and
direction; all start off-field at `x = 1000 * (i+1)`. -/
def startCars : List Body :=
  (List.range (StartInstanceCount * StartRows)).map (fun i =>
    createCar (toString i) (i : ℚ)
      (if i < StartRows * 1 then ⟨1000 * ((i : ℚ) + 1), CanvasSize - 100⟩
       else if i < StartRows * 2 then ⟨1000 * ((i : ℚ) + 1), CanvasSize - 150⟩
       else ⟨1000 * ((i : ℚ) + 1), CanvasSize - 200⟩)
      StartInstanceRadius
      (if i < StartRows * 1 then speedDirections 0.5 "right"
       else if i < StartRows * 2 then speedDirections 1 "left"
       else speedDirections 0.2 "left"))

/-- Source `startPlanks`. -/
def startPlanks : List Body :=
  (List.range (StartInstanceCount * StartRows)).map (fun i =>
    createPlank (toString i) (i : ℚ)
      (if i < StartRows * 1 then ⟨1000 * ((i : ℚ) + 1), 200⟩
       else if i < StartRows * 2 then ⟨1000 * ((i : ℚ) + 1), 250⟩
       else ⟨1000 * ((i : ℚ) + 1), 300⟩)
      StartInstanceRadius
      (if i < StartRows * 1 then speedDirections 0.5 "left"
       else if i < StartRows * 2 then speedDirections 1 "left"
       else speedDirections 0.3 "right"))

/-- Source `startGeese`. -/
def startGeese : List Body :=
  (List.range (StartInstanceCount * StartRows)).map (fun i =>
    createGoose (toString i) (i : ℚ)
      ⟨1000 * ((i : ℚ) + 1), 150⟩
      StartInstanceRadius
      (speedDirections 0.2 "right"))

/-- Source `initialBirdsDirections`, as a function of the row index (the
source precomputes the same values into an array indexed by `i`). -/
def initialBirdsDirections (i : Nat) : Vec :=
  ⟨0.5 - (i : ℚ), 0.5 - (i : ℚ) * 2⟩

/-- Source `startBirds`. -/
def startBirds : List Body :=
  (List.range StartInstanceCount).map (fun i =>
    createBird (toString i) StartTime Vec.zero StartInstanceRadius
      (initialBirdsDirections i))

/-- Source `startGoal`. -/
def startGoal : List Body :=
  (List.range NumberGoal).map createGoal

/-- Source `startFinalGoal`. -/
def startFinalGoal : List Body :=
  (List.range 1).map createFinalGoal

/-- Source `initialState`. -/
def initialState : State :=
  { time := 0
    frog := createFrog
    cars := startCars
    planks := startPlanks
    geese := startGeese
    birds := startBirds
    river := createRiver
    goals := startGoal
    finalgoal := []
    exit := []
    objCount := (StartInstanceCount : ℚ)
    gameOver := false
    points := 0
    highscore := 0 }

/-- Source `torusWrap`: wraps each coordinate around the field edges by at
most one field size. -/
def torusWrap (p : Vec) : Vec :=
  ⟨if p.x < 0 then p.x + CanvasSize else if p.x > CanvasSize then p.x - CanvasSize else p.x,
   if p.y < 0 then p.y + CanvasSize else if p.y > CanvasSize then p.y - CanvasSize else p.y⟩

/-- Source `moveBody`. -/
def moveBody (o : Body) : Body :=
  { o with pos := torusWrap (o.pos.add o.vel), vel := o.vel.add o.acc }

/-- Source local `bodiesCollided` in `handleCollisions`. -/
def bodiesCollided (a b : Body) : Bool :=
  (a.pos.sub b.pos).lenLt (a.radius + b.radius)

/-- Source local `bodiesRide` in `handleCollisions`. -/
def bodiesRide (a b : Body) : Bool :=
  (a.pos.sub b.pos).lenLt (a.radius - 7 + b.radius)

/-- Source local `frogCollided` in `handleCollisions`. -/
def frogCollided (s : State) : Bool :=
  decide (0 < (s.cars.filter (fun r => bodiesCollided s.frog r)).length) ||
  decide (0 < (s.birds.filter (fun r => bodiesCollided s.frog r)).length)

/-- Source local `frogRides` in `handleCollisions`. -/
def frogRides (s : State) : Bool :=
  decide (0 < (s.planks.filter (fun r => bodiesRide s.frog r)).length) ||
  decide (0 < (s.geese.filter (fun r => bodiesRide s.frog r)).length)

/-- Source local `riddenPlank` in `handleCollisions`; note the source
filters the planks with the looser `bodiesCollided` threshold here, not
`bodiesRide`. -/
def riddenPlank (s : State) : List Body :=
  s.planks.filter (fun r => bodiesCollided s.frog r)

/-- Source local `riddenGoose` in `handleCollisions`. -/
def riddenGoose (s : State) : List Body :=
  s.geese.filter (fun r => bodiesRide s.frog r)

/-- Source local `frogOutside` in `handleCollisions`. -/
def frogOutside (s : State) : Bool :=
  decide (s.frog.pos.x ≤ 0) || decide (s.frog.pos.x ≥ CanvasSize)

/-- Source local `frogInRiver` in `handleCollisions`. -/
def frogInRiver (s : State) : Bool :=
  decide (s.frog.pos.y < 350) && decide (s.frog.pos.y > 100)

/-- Source local `frogInRiverAndPlank` in `handleCollisions`:
`frogRides ? !frogInRiver : frogInRiver`. -/
def frogInRiverAndPlank (s : State) : Bool :=
  if frogRides s then !frogInRiver s else frogInRiver s

/-- Source local `goalsCollide` in `handleCollisions`. -/
def goalsCollide (s : State) : List Body :=
  s.goals.filter (fun r => bodiesRide s.frog r)

/-- Source local `finalGoalsCollide` in `handleCollisions`. -/
def finalGoalsCollide (s : State) : List Body :=
  s.finalgoal.filter (fun r => bodiesRide s.frog r)

/-- Source local `scorePoint` in `handleCollisions`. -/
def scorePoint (s : State) : Bool :=
  decide (0 < (goalsCollide s).length)

/-- Source utility `elem` specialised, as in `handleCollisions`, to the
equality test `(a) => (b) => a.id === b.id`; `a.findIndex(eq(e)) >= 0` is
embedded as `List.any`. -/
def elemById (a : List Body) (e : Body) : Bool :=
  a.any (fun b => e.id == b.id)

/-- Source utility `except` (the local `cut` of `handleCollisions`):
`a.filter(not(elem(eq)(b)))`. -/
def exceptById (a b : List Body) : List Body :=
  a.filter (fun x => !elemById b x)

/-- Source `handleCollisions`.  `riddenGoose[0]` and `riddenPlank[0]` are
embedded with `List.headD`; both accesses are guarded by a non-emptiness
test, so the default is never used. -/
def handleCollisions (s : State) : State :=
  { s with
    gameOver := frogCollided s || frogOutside s || frogInRiverAndPlank s
    frog :=
      if !scorePoint s && !decide (0 < (finalGoalsCollide s).length) then
        { s.frog with
          vel :=
            if frogRides s && decide (0 < (riddenGoose s).length) then
              ⟨-1 * ((riddenGoose s).headD s.frog).vel.x, 0⟩
            else if frogRides s && decide (0 < (riddenPlank s).length) then
              ⟨((riddenPlank s).headD s.frog).vel.x, 0⟩
            else Vec.zero }
      else
        { s.frog with pos := ⟨CanvasSize / 2, CanvasSize - 50⟩ }
    goals := exceptById s.goals (goalsCollide s)
    exit := s.exit ++ goalsCollide s
    points :=
      if scorePoint s then s.points + ScorePoints
      else if decide (0 < (finalGoalsCollide s).length) then s.points + FinalScorePoints
      else s.points }

/-- The state handed to `handleCollisions` by the source `tick`: frozen
when the game is over, advanced otherwise.  `elapsed` is an `Option`
because the source reducer's fall-through branch reads `e.elapsed`, which
is `undefined` when the event is a `Move` on a game-over state; that call
never reaches the advancing branch, so the `none` value is never read. -/
def tickPre (s : State) (elapsed : Option ℚ) : State :=
  if s.gameOver then s
  else
    { s with
      frog := moveBody s.frog
      cars := s.cars.map moveBody
      planks := s.planks.map moveBody
      geese := s.geese.map moveBody
      birds := if s.goals.length ≤ 0 then s.birds.map moveBody else s.birds
      finalgoal := if s.goals.length ≤ 0 then startFinalGoal else []
      time := elapsed.getD s.time }

/-- Source `tick`. -/
def tick (s : State) (elapsed : Option ℚ) : State :=
  handleCollisions (tickPre s elapsed)

/-- The four game state transitions (source classes `Tick`, `Move`,
`Restart`, `Jump`). -/
inductive GameEvent where
  | tickEv (elapsed : ℚ)
  | move (direction : String)
  | restart
  | jump
deriving DecidableEq

/-- Source `reduceState`.  The source dispatch order is:
`Move && !gameOver`, then `Restart`, then `Jump`, and everything else —
including a `Move` on a game-over state — falls through to
`tick(s, e.elapsed)`. -/
def reduceState (s : State) (e : GameEvent) : State :=
  match e with
  | .move d =>
    if !s.gameOver then
      { s with
        frog :=
          { s.frog with
            pos :=
              if d = "right" then
                ⟨if s.frog.pos.x = CanvasSize - 50 then CanvasSize - 50
                  else s.frog.pos.x + 50, s.frog.pos.y⟩
              else if d = "left" then
                ⟨if s.frog.pos.x = 50 then 50 else s.frog.pos.x - 50, s.frog.pos.y⟩
              else if d = "up" then
                ⟨s.frog.pos.x, if s.frog.pos.y = 50 then 50 else s.frog.pos.y - 50⟩
              else
                ⟨s.frog.pos.x, if s.frog.pos.y = CanvasSize - 50 then CanvasSize - 50
                  else s.frog.pos.y + 50⟩ } }
    else tick s none
  | .restart =>
    { initialState with
      highscore := if s.points > s.highscore then s.points else s.highscore
      exit := s.finalgoal }
  | .jump =>
    { s with
      frog :=
        { s.frog with
          pos := ⟨s.frog.pos.x, if s.frog.pos.y ≤ 100 then 50 else s.frog.pos.y - 100⟩ } }
  | .tickEv t => tick s (some t)

/-- Folding the reducer over an event list from the initial state, as the
source `scan(reduceState, initialState)` does over the merged stream. -/
def runEvents (es : List GameEvent) : State :=
  es.foldl reduceState initialState

end Frogger

namespace Frogger

set_option maxRecDepth 100000

/-! ### Basic unfolding lemmas for the rule engine and reducer -/

/-- The rule engine computes the game-over flag from the three loss
predicates of the source. -/
theorem handleCollisions_gameOver (s : State) :
    (handleCollisions s).gameOver =
      (frogCollided s || frogOutside s || frogInRiverAndPlank s) := rfl

/-- The rule engine removes the collided goals from `goals`. -/
theorem handleCollisions_goals (s : State) :
    (handleCollisions s).goals = exceptById s.goals (goalsCollide s) := rfl

/-- The rule engine appends the collided goals to `exit`. -/
theorem handleCollisions_exit (s : State) :
    (handleCollisions s).exit = s.exit ++ goalsCollide s := rfl

/-- The rule engine never touches the bonus-goal collection. -/
theorem handleCollisions_finalgoal (s : State) :
    (handleCollisions s).finalgoal = s.finalgoal := rfl

/-- The rule engine never touches the hostile fliers. -/
theorem handleCollisions_birds (s : State) :
    (handleCollisions s).birds = s.birds := rfl

/-- A tick event dispatches to the source `tick`. -/
theorem reduceState_tickEv (s : State) (t : ℚ) :
    reduceState s (.tickEv t) = tick s (some t) := rfl

/-- A tick on a game-over state applies the rule engine to the frozen
state without advancing any body. -/
theorem tick_of_gameOver (s : State) (e : Option ℚ) (h : s.gameOver = true) :
    tick s e = handleCollisions s := by
  unfold tick tickPre
  rw [h]
  simp

/-- A move event on a game-over state falls through the source dispatch
chain to `tick(s, e.elapsed)`, hence also to the frozen rule engine. -/
theorem reduceState_move_of_gameOver (s : State) (d : String) (h : s.gameOver = true) :
    reduceState s (.move d) = handleCollisions s := by
  unfold reduceState
  rw [h]
  simpa using tick_of_gameOver s none h

/-- With no goal and no bonus-goal within ride distance, the rule engine
keeps the agent's position (only its velocity is rewritten). -/
theorem handleCollisions_frog_pos_of_no_pickup (s : State)
    (hg : goalsCollide s = []) (hf : finalGoalsCollide s = []) :
    (handleCollisions s).frog.pos = s.frog.pos := by
  unfold handleCollisions
  simp [scorePoint, hg, hf]

/-! ### C5 — restart reset -/

/-- C5: a `Restart` event discards the state for the initial one, zeroing
the score, clearing the game-over flag, restoring every movable-body
collection to its factory value, and carrying forward
`highScore = max(previous score, previous highScore)`. -/
theorem c5_restart_reset (s : State) :
    (reduceState s .restart).gameOver = false ∧
    (reduceState s .restart).points = 0 ∧
    (reduceState s .restart).highscore = max s.points s.highscore ∧
    (reduceState s .restart).frog = createFrog ∧
    (reduceState s .restart).cars = startCars ∧
    (reduceState s .restart).planks = startPlanks ∧
    (reduceState s .restart).geese = startGeese ∧
    (reduceState s .restart).birds = startBirds ∧
    (reduceState s .restart).goals = startGoal ∧
    (reduceState s .restart).finalgoal = [] := by
  refine ⟨rfl, rfl, ?_, rfl, rfl, rfl, rfl, rfl, rfl, rfl⟩
  show (if s.points > s.highscore then s.points else s.highscore) = _
  rcases le_or_lt s.points s.highscore with h | h
  · rw [if_neg (not_lt.mpr h), max_eq_right h]
  · rw [if_pos h, max_eq_left h.le]

/-! ### C2 — move clamping -/

/-- An agent placed just off the movement grid, at `x = fieldSize - 1`. -/
def sOffGrid : State :=
  { initialState with frog := { createFrog with pos := ⟨599, 550⟩ } }

/-- C2 counterexample: the source clamps a move only when the coordinate
is exactly equal to the snap boundary value, so a non-over agent at
`x = fieldSize - 1 = 599` receiving `Move(right)` is moved to `x = 649`,
past `fieldSize - 50 = 550` and out of the field `[0, 600]`. -/
theorem c2_offgrid_move_counterexample :
    sOffGrid.gameOver = false ∧
    (reduceState sOffGrid (.move "right")).frog.pos.x = 649 ∧
    ¬ (reduceState sOffGrid (.move "right")).frog.pos.x ≤ CanvasSize - 50 ∧
    ¬ (reduceState sOffGrid (.move "right")).frog.pos.x ≤ CanvasSize := by
  refine ⟨rfl, ?_, ?_, ?_⟩ <;> with_unfolding_all decide

/-- C2 amended: for every non-over state, a Move event shifts the agent's
coordinate on the requested axis by the 50-unit grid step, except that it
is a no-op exactly when the coordinate already equals the snap boundary
value (`50` for left/up, `fieldSize - 50` for right/down); the step is
otherwise unconditional, so only an agent whose coordinate lies on the
50-unit grid inside the field is confined to `[50, fieldSize - 50]`. -/
theorem c2_move_step_amended (s : State) (h : s.gameOver = false) :
    ((reduceState s (.move "right")).frog.pos =
      ⟨if s.frog.pos.x = CanvasSize - 50 then CanvasSize - 50 else s.frog.pos.x + 50,
        s.frog.pos.y⟩) ∧
    ((reduceState s (.move "left")).frog.pos =
      ⟨if s.frog.pos.x = 50 then 50 else s.frog.pos.x - 50, s.frog.pos.y⟩) ∧
    ((reduceState s (.move "up")).frog.pos =
      ⟨s.frog.pos.x, if s.frog.pos.y = 50 then 50 else s.frog.pos.y - 50⟩) ∧
    ((reduceState s (.move "down")).frog.pos =
      ⟨s.frog.pos.x,
        if s.frog.pos.y = CanvasSize - 50 then CanvasSize - 50 else s.frog.pos.y + 50⟩) ∧
    (∀ k : ℕ, s.frog.pos.x = 50 * k → 1 ≤ k → k ≤ 11 →
      50 ≤ (reduceState s (.move "right")).frog.pos.x ∧
      (reduceState s (.move "right")).frog.pos.x ≤ CanvasSize - 50 ∧
      50 ≤ (reduceState s (.move "left")).frog.pos.x ∧
      (reduceState s (.move "left")).frog.pos.x ≤ CanvasSize - 50) := by
  have hright : (reduceState s (.move "right")).frog.pos =
      ⟨if s.frog.pos.x = CanvasSize - 50 then CanvasSize - 50 else s.frog.pos.x + 50,
        s.frog.pos.y⟩ := by
    unfold reduceState; rw [h]; simp
  have hleft : (reduceState s (.move "left")).frog.pos =
      ⟨if s.frog.pos.x = 50 then 50 else s.frog.pos.x - 50, s.frog.pos.y⟩ := by
    unfold reduceState; rw [h]; simp
  have hup : (reduceState s (.move "up")).frog.pos =
      ⟨s.frog.pos.x, if s.frog.pos.y = 50 then 50 else s.frog.pos.y - 50⟩ := by
    unfold reduceState; rw [h]; simp
  have hdown : (reduceState s (.move "down")).frog.pos =
      ⟨s.frog.pos.x,
        if s.frog.pos.y = CanvasSize - 50 then CanvasSize - 50 else s.frog.pos.y + 50⟩ := by
    unfold reduceState; rw [h]; simp
  refine ⟨hright, hleft, hup, hdown, ?_⟩
  intro k hk h1 h11
  have hC : CanvasSize - 50 = (550 : ℚ) := by norm_num [CanvasSize]
  constructor
  · rw [hright]
    dsimp only
    split_ifs with he
    · rw [hC]; norm_num
    · rw [hk]
      have : (1 : ℚ) ≤ (k : ℚ) := by exact_mod_cast h1
      linarith
  constructor
  · rw [hright]
    dsimp only
    split_ifs with he
    · rw [hC]
    · rw [hC]
      rw [hk, hC] at he
      have hk10 : k ≤ 10 := by
        by_contra hgt
        have : k = 11 := by omega
        subst this
        exact he (by norm_num)
      rw [hk]
      have : (k : ℚ) ≤ 10 := by exact_mod_cast hk10
      linarith
  constructor
  · rw [hleft]
    dsimp only
    split_ifs with he
    · norm_num
    · rw [hk] at he ⊢
      have hk2 : 2 ≤ k := by
        by_contra hlt
        have : k = 1 := by omega
        subst this
        exact he (by norm_num)
      have : (2 : ℚ) ≤ (k : ℚ) := by exact_mod_cast hk2
      linarith
  · rw [hleft]
    dsimp only
    split_ifs with he
    · rw [hC]; norm_num
    · rw [hk, hC]
      have : (k : ℚ) ≤ 11 := by exact_mod_cast h11
      linarith

/-- C2 witness: the amended move rule evaluated at the initial state
(`x = 300 = 50 * 6`): moving right lands at `350`, inside `[50, 550]`. -/
theorem c2_witness :
    initialState.gameOver = false ∧
    (reduceState initialState (.move "right")).frog.pos.x = 350 ∧
    50 ≤ (reduceState initialState (.move "right")).frog.pos.x ∧
    (reduceState initialState (.move "right")).frog.pos.x ≤ CanvasSize - 50 := by
  have h := c2_move_step_amended initialState rfl
  have hk := h.2.2.2.2 6 (by with_unfolding_all decide) (by omega) (by omega)
  refine ⟨rfl, ?_, hk.1, hk.2.1⟩
  rw [h.1]
  with_unfolding_all decide

end Frogger

namespace Frogger

/-! ### C3 — movement suppression while over -/

/-- A game-over state otherwise identical to the initial one. -/
def sOver : State := { initialState with gameOver := true }

/-- C3 counterexample: with `isOver` true, a `Jump` event — which the
source dispatches before the game-over test — still moves the agent:
from `y = 550` to `y = 450`. -/
theorem c3_jump_moves_when_over :
    sOver.gameOver = true ∧
    (reduceState sOver .jump).frog.pos ≠ sOver.frog.pos := by
  refine ⟨rfl, ?_⟩
  with_unfolding_all decide

/-- C3 amended: with `isOver` true, `Move` and `Tick` events leave the
agent's position unchanged provided no goal or bonus goal is within ride
distance of the agent (both fall through to the frozen rule engine, whose
pickup branch would otherwise teleport the agent to the restart
coordinate); a `Jump`, however, is not gated on `isOver` and still moves
the agent. -/
theorem c3_position_held_amended (s : State) (d : String) (t : ℚ)
    (h : s.gameOver = true)
    (hg : goalsCollide s = []) (hf : finalGoalsCollide s = []) :
    (reduceState s (.move d)).frog.pos = s.frog.pos ∧
    (reduceState s (.tickEv t)).frog.pos = s.frog.pos := by
  constructor
  · rw [reduceState_move_of_gameOver s d h]
    exact handleCollisions_frog_pos_of_no_pickup s hg hf
  · rw [reduceState_tickEv, tick_of_gameOver s (some t) h]
    exact handleCollisions_frog_pos_of_no_pickup s hg hf

/-- C3 witness: at the game-over initial state no goal is within ride
distance, and both a `Move` and a `Tick` hold the agent at `(300, 550)`. -/
theorem c3_witness :
    (reduceState sOver (.move "up")).frog.pos = sOver.frog.pos ∧
    (reduceState sOver (.tickEv 0)).frog.pos = sOver.frog.pos :=
  c3_position_held_amended sOver "up" 0 rfl (by with_unfolding_all decide)
    (by with_unfolding_all decide)

/-! ### C4 — loss stability -/

/-- Event sequence reaching a game-over state: walk into the hazard band
(five grid steps up from the start), let one tick record the terrain
loss, then jump three times up to the goal row while the game is over. -/
def resurrectPrefix : List GameEvent :=
  [.move "up", .move "up", .move "up", .move "up", .move "up",
   .tickEv 1, .jump, .jump, .jump]

/-- C4 counterexample: the state reached from the initial state by
`resurrectPrefix` has `isOver = true`, yet processing one further `Tick`
yields `isOver = false` — the frozen rule engine recomputes the loss
predicates at the jumped-to position (and even awards a goal pickup),
so `isOver` returns to false without any `Restart`. -/
theorem c4_resurrection_counterexample :
    (runEvents resurrectPrefix).gameOver = true ∧
    (reduceState (runEvents resurrectPrefix) (.tickEv 2)).gameOver = false := by
  constructor <;> with_unfolding_all decide

/-- C4 amended: once `isOver` is true, a further `Tick` advances no body;
it re-applies the rule engine to the frozen state, so the new `isOver` is
the value of the loss predicates recomputed at the current positions.  It
therefore stays true only while the frozen configuration still fails:
an intervening `Jump` (not gated on `isOver`) can move the agent out of
the failing configuration, after which a `Tick` resets `isOver` to false
without a `Restart`. -/
theorem c4_tick_recompute_amended (s : State) (t : ℚ) (h : s.gameOver = true) :
    reduceState s (.tickEv t) = handleCollisions s ∧
    (reduceState s (.tickEv t)).gameOver =
      (frogCollided s || frogOutside s || frogInRiverAndPlank s) := by
  rw [reduceState_tickEv, tick_of_gameOver s (some t) h]
  exact ⟨rfl, handleCollisions_gameOver s⟩

/-- C4 witness: at the game-over initial state a `Tick` is exactly the
frozen rule engine, and the recomputed flag is false (the frozen frog
stands safely at the start position), exhibiting the non-stickiness. -/
theorem c4_witness :
    reduceState sOver (.tickEv 0) = handleCollisions sOver ∧
    (reduceState sOver (.tickEv 0)).gameOver =
      (frogCollided sOver || frogOutside sOver || frogInRiverAndPlank sOver) :=
  c4_tick_recompute_amended sOver 0 rfl

/-! ### C8 — bonus spawn and flier dormancy -/

/-- A game-over state with all goals cleared and the agent resting on the
right field edge (so the recomputed loss predicates keep it over). -/
def sOverOut : State :=
  { initialState with
    goals := []
    gameOver := true
    frog := { createFrog with pos := ⟨600, 550⟩ } }

/-- C8 counterexample: `reduceState sOverOut (Tick 0)` is a state produced
by a `Tick` whose `goals` is empty, yet the next `Tick` (the game being
over) spawns no bonus goal and does not advance the hostile fliers. -/
theorem c8_gameover_no_spawn_counterexample :
    (reduceState sOverOut (.tickEv 0)).goals = [] ∧
    (reduceState sOverOut (.tickEv 0)).gameOver = true ∧
    (reduceState (reduceState sOverOut (.tickEv 0)) (.tickEv 1)).finalgoal = [] ∧
    (reduceState (reduceState sOverOut (.tickEv 0)) (.tickEv 1)).birds =
      (reduceState sOverOut (.tickEv 0)).birds := by
  refine ⟨?_, ?_, ?_, ?_⟩ <;> with_unfolding_all decide

/-- C8 amended: for a NON-OVER state, a `Tick` spawns nothing while
`goals` is non-empty (empty bonus collection, hostile fliers frozen), and
once `goals` is empty it yields exactly the single fixed bonus goal at
`(300, 50)` and advances every hostile flier by one kinematics step; for
a game-over state a `Tick` leaves both the bonus collection and the
fliers untouched. -/
theorem c8_spawn_amended (s : State) (t : ℚ) :
    (s.gameOver = false → s.goals ≠ [] →
      (reduceState s (.tickEv t)).finalgoal = [] ∧
      (reduceState s (.tickEv t)).birds = s.birds) ∧
    (s.gameOver = false → s.goals = [] →
      (reduceState s (.tickEv t)).finalgoal = startFinalGoal ∧
      startFinalGoal = [createFinalGoal 0] ∧
      (createFinalGoal 0).pos = ⟨300, 50⟩ ∧
      (reduceState s (.tickEv t)).birds = s.birds.map moveBody) ∧
    (s.gameOver = true →
      (reduceState s (.tickEv t)).finalgoal = s.finalgoal ∧
      (reduceState s (.tickEv t)).birds = s.birds) := by
  refine ⟨?_, ?_, ?_⟩
  · intro h hne
    rw [reduceState_tickEv]
    unfold tick tickPre
    rw [h]
    have hlen : ¬ s.goals.length ≤ 0 := by
      simpa [Nat.le_zero, List.length_eq_zero] using hne
    simp [handleCollisions_finalgoal, handleCollisions_birds, hlen]
  · intro h hemp
    rw [reduceState_tickEv]
    unfold tick tickPre
    rw [h]
    have hlen : s.goals.length ≤ 0 := by simp [hemp]
    refine ⟨?_, ?_, ?_, ?_⟩
    · simp [handleCollisions_finalgoal, hlen]
    · with_unfolding_all decide
    · with_unfolding_all decide
    · simp [handleCollisions_birds, hlen]
  · intro h
    rw [reduceState_tickEv, tick_of_gameOver s (some t) h]
    exact ⟨handleCollisions_finalgoal s, handleCollisions_birds s⟩

/-- C8 witness: at the initial state (goals present, not over) a `Tick`
leaves the bonus collection empty and the fliers unmoved; at the same
state with the goals cleared, a `Tick` spawns the single bonus goal and
advances the fliers. -/
theorem c8_witness :
    ((reduceState initialState (.tickEv 0)).finalgoal = [] ∧
      (reduceState initialState (.tickEv 0)).birds = initialState.birds) ∧
    ((reduceState { initialState with goals := [] } (.tickEv 0)).finalgoal =
        startFinalGoal ∧
      (reduceState { initialState with goals := [] } (.tickEv 0)).birds =
        initialState.birds.map moveBody) := by
  constructor
  · exact (c8_spawn_amended initialState 0).1 rfl (by with_unfolding_all decide)
  · have h := (c8_spawn_amended { initialState with goals := [] } 0).2.1 rfl rfl
    exact ⟨h.1, h.2.2.2⟩

end Frogger

namespace Frogger

/-! ### Pickup helper lemmas -/

/-- A negative score test means no goal is within ride distance. -/
theorem goalsCollide_eq_nil_of_not_scorePoint (s : State)
    (h : scorePoint s = false) : goalsCollide s = [] := by
  unfold scorePoint at h
  rw [decide_eq_false_iff_not, Nat.pos_iff_ne_zero, not_not,
    List.length_eq_zero] at h
  exact h

/-- Cutting an empty collided list removes nothing. -/
theorem exceptById_nil (l : List Body) : exceptById l [] = l := by
  unfold exceptById elemById
  simp

/-- Any member of the collided list is cut, because its own id matches. -/
theorem not_mem_exceptById_self {l c : List Body} {g : Body} (hg : g ∈ c) :
    g ∉ exceptById l c := by
  intro hmem
  have hkeep := List.of_mem_filter hmem
  have hany : elemById c g = true := by
    unfold elemById
    exact List.any_eq_true.mpr ⟨g, hg, by simp⟩
  rw [hany] at hkeep
  exact Bool.false_ne_true hkeep

/-! ### C6 — pickup rules -/

/-- C6: pickups are mutually exclusive with the goal pickup evaluated
first: a ridden goal is removed from `goals` (by id), appended to the
departed list, and worth 500 points; only with no goal pickup does a
ridden bonus goal award 1000 points; either pickup teleports the agent to
the fixed restart coordinate and leaves its velocity unchanged. -/
theorem c6_pickup_rules (s : State) :
    (scorePoint s = true →
      (handleCollisions s).goals = exceptById s.goals (goalsCollide s) ∧
      (handleCollisions s).exit = s.exit ++ goalsCollide s ∧
      (∀ g ∈ goalsCollide s,
        g ∉ (handleCollisions s).goals ∧ g ∈ (handleCollisions s).exit) ∧
      (handleCollisions s).points = s.points + ScorePoints ∧
      (handleCollisions s).frog.pos = ⟨CanvasSize / 2, CanvasSize - 50⟩ ∧
      (handleCollisions s).frog.vel = s.frog.vel) ∧
    (scorePoint s = false → finalGoalsCollide s ≠ [] →
      (handleCollisions s).points = s.points + FinalScorePoints ∧
      (handleCollisions s).goals = s.goals ∧
      (handleCollisions s).exit = s.exit ∧
      (handleCollisions s).frog.pos = ⟨CanvasSize / 2, CanvasSize - 50⟩ ∧
      (handleCollisions s).frog.vel = s.frog.vel) := by
  constructor
  · intro h
    refine ⟨handleCollisions_goals s, handleCollisions_exit s, ?_, ?_, ?_, ?_⟩
    · intro g hg
      refine ⟨?_, ?_⟩
      · rw [handleCollisions_goals]
        exact not_mem_exceptById_self hg
      · rw [handleCollisions_exit]
        exact List.mem_append_right _ hg
    · unfold handleCollisions
      simp [h]
    · unfold handleCollisions
      simp [h]
    · unfold handleCollisions
      simp [h]
  · intro h hne
    have hnil : goalsCollide s = [] := goalsCollide_eq_nil_of_not_scorePoint s h
    have hlen : (0 < (finalGoalsCollide s).length) := List.length_pos.mpr hne
    refine ⟨?_, ?_, ?_, ?_, ?_⟩
    · unfold handleCollisions
      simp [h, hlen]
    · rw [handleCollisions_goals, hnil, exceptById_nil]
    · rw [handleCollisions_exit, hnil, List.append_nil]
    · unfold handleCollisions
      simp [h, hlen]
    · unfold handleCollisions
      simp [h, hlen]

/-- An agent standing exactly on the first goal. -/
def sGoalRide : State :=
  { initialState with frog := { createFrog with pos := ⟨100, 50⟩ } }

/-- C6 witness: riding the first goal awards 500 points, removes exactly
that goal to the departed list and teleports the agent to `(300, 550)`. -/
theorem c6_witness :
    scorePoint sGoalRide = true ∧
    (handleCollisions sGoalRide).points = sGoalRide.points + ScorePoints ∧
    (handleCollisions sGoalRide).frog.pos = ⟨CanvasSize / 2, CanvasSize - 50⟩ ∧
    (handleCollisions sGoalRide).frog.vel = sGoalRide.frog.vel := by
  have hsp : scorePoint sGoalRide = true := by with_unfolding_all decide
  have h := (c6_pickup_rules sGoalRide).1 hsp
  exact ⟨hsp, h.2.2.2.1, h.2.2.2.2.1, h.2.2.2.2.2⟩

/-! ### C7 — ride-velocity transfer -/

/-- The supportive ride threshold is strictly tighter than the collision
threshold, so riding implies colliding. -/
theorem bodiesRide_collided (a b : Body) (h : bodiesRide a b = true) :
    bodiesCollided a b = true := by
  unfold bodiesRide bodiesCollided Vec.lenLt at *
  simp only [Bool.and_eq_true, decide_eq_true_eq] at *
  obtain ⟨h0, hd⟩ := h
  refine ⟨by linarith, by nlinarith⟩

/-- With no pickup, the rule engine's velocity assignment in source
form: goose branch first, then the plank branch, else zero. -/
theorem handleCollisions_frog_vel_of_no_pickup (s : State)
    (hg : scorePoint s = false) (hf : finalGoalsCollide s = []) :
    (handleCollisions s).frog.vel =
      (if frogRides s && decide (0 < (riddenGoose s).length) then
        ⟨-1 * ((riddenGoose s).headD s.frog).vel.x, 0⟩
      else if frogRides s && decide (0 < (riddenPlank s).length) then
        ⟨((riddenPlank s).headD s.frog).vel.x, 0⟩
      else Vec.zero) := by
  unfold handleCollisions
  simp [hg, hf]

/-- A test goose ridden by the agent, drifting diagonally. -/
def gooseT : Body := createGoose "9" 0 ⟨300, 300⟩ StartInstanceRadius ⟨1, 1⟩

/-- A state in which the agent rides `gooseT` and nothing else. -/
def sGooseRide : State :=
  { initialState with
    frog := { createFrog with pos := ⟨300, 300⟩ }
    geese := [gooseT] }

/-- C7 counterexample: riding a safe-flier of velocity `(1, 1)` with no
pickup leaves the agent with velocity `(-1, 0)`, not the negated flier
velocity `(-1, -1)` — the source negates only the horizontal component
and zeroes the vertical one. -/
theorem c7_goose_velocity_counterexample :
    riddenGoose sGooseRide = [gooseT] ∧
    scorePoint sGooseRide = false ∧
    finalGoalsCollide sGooseRide = [] ∧
    (handleCollisions sGooseRide).frog.vel ≠ gooseT.vel.scale (-1) := by
  refine ⟨?_, ?_, ?_, ?_⟩ <;> with_unfolding_all decide

/-- C7 amended: absent any pickup, the agent's velocity becomes
`(-v.x, 0)` for the first listed safe-flier within ride distance; failing
that, `(v.x, 0)` for the first plank within plain *collision* distance
when the agent is riding (the source selects the carrier plank with the
looser collision threshold); and zero when not riding.  In particular,
when the only plank is one within ride distance and no safe-flier is
ridden, the agent receives exactly that plank's horizontal velocity. -/
theorem c7_ride_velocity_amended (s : State)
    (hg : scorePoint s = false) (hf : finalGoalsCollide s = []) :
    (riddenGoose s ≠ [] →
      (handleCollisions s).frog.vel =
        ⟨-1 * ((riddenGoose s).headD s.frog).vel.x, 0⟩) ∧
    (riddenGoose s = [] → frogRides s = true → riddenPlank s ≠ [] →
      (handleCollisions s).frog.vel =
        ⟨((riddenPlank s).headD s.frog).vel.x, 0⟩) ∧
    (frogRides s = false → (handleCollisions s).frog.vel = Vec.zero) ∧
    (∀ p : Body, s.planks = [p] → bodiesRide s.frog p = true →
      riddenGoose s = [] →
      (handleCollisions s).frog.vel = ⟨p.vel.x, 0⟩) := by
  have hvel := handleCollisions_frog_vel_of_no_pickup s hg hf
  refine ⟨?_, ?_, ?_, ?_⟩
  · intro hgo
    have hlen : (0 < (riddenGoose s).length) := List.length_pos.mpr hgo
    have hr : frogRides s = true := by
      unfold frogRides
      unfold riddenGoose at hlen
      simp [hlen]
    rw [hvel, hr]
    simp [hlen]
  · intro hgo hr hp
    have hlen : (0 < (riddenPlank s).length) := List.length_pos.mpr hp
    rw [hvel, hr, hgo]
    simp [hlen]
  · intro hr
    rw [hvel, hr]
    simp
  · intro p hplanks hride hgo
    have hpl : riddenPlank s = [p] := by
      unfold riddenPlank
      rw [hplanks]
      simp [bodiesRide_collided _ _ hride]
    have hr : frogRides s = true := by
      unfold frogRides
      rw [hplanks]
      simp [hride]
    have hlen : (0 < (riddenPlank s).length) := by rw [hpl]; simp
    rw [hvel, hr, hgo]
    simp [hlen, hpl]

/-- A test plank ridden by the agent, moving right at speed 1/2. -/
def plankT : Body := createPlank "9" 0 ⟨300, 200⟩ StartInstanceRadius ⟨0.5, 0⟩

/-- A state in which the agent rides `plankT` and nothing else. -/
def sPlankRide : State :=
  { initialState with
    frog := { createFrog with pos := ⟨300, 200⟩ }
    planks := [plankT] }

/-- C7 witness: riding the single plank `plankT` (velocity `(1/2, 0)`)
with no pickup transfers exactly its horizontal velocity to the agent. -/
theorem c7_witness :
    (handleCollisions sPlankRide).frog.vel = ⟨plankT.vel.x, 0⟩ :=
  (c7_ride_velocity_amended sPlankRide (by with_unfolding_all decide)
      (by with_unfolding_all decide)).2.2.2 plankT rfl
    (by with_unfolding_all decide) (by with_unfolding_all decide)

/-! ### C10 — bonus-goal frame behaviour -/

/-- The pre-collision state of a tick keeps the goal list. -/
theorem tickPre_goals (s : State) (e : Option ℚ) :
    (tickPre s e).goals = s.goals := by
  unfold tickPre
  split <;> rfl

/-- The pre-collision state of a tick keeps the score. -/
theorem tickPre_points (s : State) (e : Option ℚ) :
    (tickPre s e).points = s.points := by
  unfold tickPre
  split <;> rfl

/-- The pre-collision state of a tick keeps the departed list. -/
theorem tickPre_exit (s : State) (e : Option ℚ) :
    (tickPre s e).exit = s.exit := by
  unfold tickPre
  split <;> rfl

/-- C10: the rule engine never consumes a bonus goal — the bonus
collection passes through `handleCollisions` unchanged and only regular
collided goals are appended to the departed list — and every non-over
tick with `goals` empty re-creates the bonus collection as the single
initial bonus goal; consequently a tick whose advanced agent is within
ride distance of the bonus goal scores the bonus value again (position
reset, nothing departed), and this recurs on every such tick. -/
theorem c10_bonus_frame (s : State) (t : ℚ) :
    ((handleCollisions s).finalgoal = s.finalgoal ∧
      (handleCollisions s).exit = s.exit ++ goalsCollide s) ∧
    (s.gameOver = false → s.goals = [] →
      (reduceState s (.tickEv t)).finalgoal = startFinalGoal ∧
      (bodiesRide (moveBody s.frog) (createFinalGoal 0) = true →
        (reduceState s (.tickEv t)).points = s.points + FinalScorePoints ∧
        (reduceState s (.tickEv t)).frog.pos = ⟨CanvasSize / 2, CanvasSize - 50⟩ ∧
        (reduceState s (.tickEv t)).exit = s.exit)) := by
  refine ⟨⟨handleCollisions_finalgoal s, handleCollisions_exit s⟩, ?_⟩
  intro h hemp
  have hlen : s.goals.length ≤ 0 := by simp [hemp]
  have hmid : tickPre s (some t) =
      { s with
        frog := moveBody s.frog
        cars := s.cars.map moveBody
        planks := s.planks.map moveBody
        geese := s.geese.map moveBody
        birds := s.birds.map moveBody
        finalgoal := startFinalGoal
        time := t } := by
    unfold tickPre
    rw [h]
    simp [hlen]
  have hmgoals : (tickPre s (some t)).goals = s.goals := tickPre_goals s (some t)
  have hgc : goalsCollide (tickPre s (some t)) = [] := by
    unfold goalsCollide
    rw [hmgoals, hemp]
    simp
  have hsp : scorePoint (tickPre s (some t)) = false := by
    unfold scorePoint
    rw [hgc]
    simp
  constructor
  · rw [reduceState_tickEv]
    unfold tick
    rw [handleCollisions_finalgoal, hmid]
  · intro hride
    have hfinal : finalGoalsCollide (tickPre s (some t)) = [createFinalGoal 0] := by
      unfold finalGoalsCollide
      rw [hmid]
      show startFinalGoal.filter _ = _
      have hsf : startFinalGoal = [createFinalGoal 0] := by with_unfolding_all decide
      rw [hsf]
      simp only [List.filter_cons, List.filter_nil]
      rw [if_pos]
      exact hride
    have hflen : (0 < (finalGoalsCollide (tickPre s (some t))).length) := by
      rw [hfinal]
      simp
    rw [reduceState_tickEv]
    unfold tick
    refine ⟨?_, ?_, ?_⟩
    · unfold handleCollisions
      simp only [hsp, hflen]
      rw [tickPre_points]
      simp
    · unfold handleCollisions
      simp [hsp, hflen]
    · rw [handleCollisions_exit, hgc, List.append_nil, tickPre_exit]

/-- A non-over state with the goals cleared and the agent standing on the
bonus-goal spawn point. -/
def sBonusRide : State :=
  { initialState with
    goals := []
    frog := { createFrog with pos := ⟨300, 50⟩ } }

/-- C10 witness: with goals cleared and the agent resting on the bonus
coordinate, a tick re-spawns the bonus goal, awards 1000 points, resets
the agent and departs nothing. -/
theorem c10_witness :
    (reduceState sBonusRide (.tickEv 0)).finalgoal = startFinalGoal ∧
    (reduceState sBonusRide (.tickEv 0)).points = sBonusRide.points + FinalScorePoints ∧
    (reduceState sBonusRide (.tickEv 0)).exit = sBonusRide.exit := by
  have h := (c10_bonus_frame sBonusRide 0).2 rfl rfl
  have hr := h.2 (by with_unfolding_all decide)
  exact ⟨h.1, hr.1, hr.2.2⟩

end Frogger

namespace Frogger

/-! ### C1 — loss determination -/

/-- Specification-level predicate: the agent touches a hazard vehicle or
a hostile flier (lethal collision test). -/
def FrogCollidedP (s : State) : Prop :=
  (∃ b ∈ s.cars, bodiesCollided s.frog b = true) ∨
  (∃ b ∈ s.birds, bodiesCollided s.frog b = true)

/-- Specification-level predicate: the agent rides a platform or a
safe-flier (supportive ride test). -/
def RidesP (s : State) : Prop :=
  (∃ b ∈ s.planks, bodiesRide s.frog b = true) ∨
  (∃ b ∈ s.geese, bodiesRide s.frog b = true)

/-- Specification-level predicate: the agent's horizontal position is at
or beyond a field edge. -/
def FrogOutsideP (s : State) : Prop :=
  s.frog.pos.x ≤ 0 ∨ CanvasSize ≤ s.frog.pos.x

/-- Specification-level predicate: the agent's vertical position lies in
the hazard zone's band. -/
def InBandP (s : State) : Prop :=
  s.frog.pos.y < 350 ∧ 100 < s.frog.pos.y

instance (s : State) : Decidable (FrogCollidedP s) := by
  unfold FrogCollidedP
  exact inferInstance

instance (s : State) : Decidable (RidesP s) := by
  unfold RidesP
  exact inferInstance

instance (s : State) : Decidable (FrogOutsideP s) := by
  unfold FrogOutsideP
  exact inferInstance

instance (s : State) : Decidable (InBandP s) := by
  unfold InBandP
  exact inferInstance

/-- Positive filter length means a member satisfies the predicate. -/
theorem filter_length_pos_iff {l : List Body} {p : Body → Bool} :
    0 < (l.filter p).length ↔ ∃ x ∈ l, p x = true := by
  rw [List.length_pos_iff_exists_mem]
  constructor
  · rintro ⟨x, hx⟩
    rw [List.mem_filter] at hx
    exact ⟨x, hx.1, hx.2⟩
  · rintro ⟨x, hl, hp⟩
    exact ⟨x, List.mem_filter.mpr ⟨hl, hp⟩⟩

/-- The computed collision flag agrees with the spec-level predicate. -/
theorem frogCollided_iff (s : State) :
    frogCollided s = true ↔ FrogCollidedP s := by
  unfold frogCollided FrogCollidedP
  simp only [Bool.or_eq_true, decide_eq_true_eq]
  rw [filter_length_pos_iff, filter_length_pos_iff]

/-- The computed ride flag agrees with the spec-level predicate. -/
theorem frogRides_iff (s : State) :
    frogRides s = true ↔ RidesP s := by
  unfold frogRides RidesP
  simp only [Bool.or_eq_true, decide_eq_true_eq]
  rw [filter_length_pos_iff, filter_length_pos_iff]

/-- The computed out-of-bounds flag agrees with the spec-level predicate. -/
theorem frogOutside_iff (s : State) :
    frogOutside s = true ↔ FrogOutsideP s := by
  unfold frogOutside FrogOutsideP
  simp [ge_iff_le]

/-- The computed hazard-band flag agrees with the spec-level predicate. -/
theorem frogInRiver_iff (s : State) :
    frogInRiver s = true ↔ InBandP s := by
  unfold frogInRiver InBandP
  simp [gt_iff_lt]

/-- The combined terrain flag is an exclusive-or of riding and being in
the hazard band. -/
theorem frogInRiverAndPlank_iff (s : State) :
    frogInRiverAndPlank s = true ↔
      ((RidesP s ∧ ¬ InBandP s) ∨ (¬ RidesP s ∧ InBandP s)) := by
  have hR := frogRides_iff s
  have hB := frogInRiver_iff s
  unfold frogInRiverAndPlank
  rcases hr : frogRides s
  · rw [hr] at hR
    simp only [Bool.false_eq_true, false_iff] at hR
    rcases hb : frogInRiver s
    · rw [hb] at hB
      simp only [Bool.false_eq_true, false_iff] at hB
      simp [hR, hB]
    · rw [hb] at hB
      simp only [true_iff] at hB
      simp [hR, hB]
  · rw [hr] at hR
    simp only [true_iff] at hR
    rcases hb : frogInRiver s
    · rw [hb] at hB
      simp only [Bool.false_eq_true, false_iff] at hB
      simp [hR, hB]
    · rw [hb] at hB
      simp only [true_iff] at hB
      simp [hR, hB]

/-- A state whose agent rides a plank placed below the hazard band. -/
def sRideOut : State :=
  { initialState with
    frog := { createFrog with pos := ⟨300, 400⟩ }
    planks := [createPlank "9" 0 ⟨300, 400⟩ StartInstanceRadius ⟨0.5, 0⟩] }

/-- C1 counterexample: an agent riding a plank while OUTSIDE the hazard
band is declared a loss by the rule engine, although the claim's formula
`collided OR outOfBounds OR (inBand AND NOT riding)` is false there:
the source computes `rides ? !inBand : inBand`, an exclusive-or. -/
theorem c1_riding_outside_band_counterexample :
    (handleCollisions sRideOut).gameOver = true ∧
    ¬ (FrogCollidedP sRideOut ∨ FrogOutsideP sRideOut ∨
        (InBandP sRideOut ∧ ¬ RidesP sRideOut)) ∧
    RidesP sRideOut ∧ ¬ InBandP sRideOut := by
  refine ⟨?_, ?_, ?_, ?_⟩ <;> with_unfolding_all decide

/-- C1 amended: for every state already advanced for a tick, the rule
engine sets `isOver` true exactly when the agent collided with a hazard
vehicle or hostile flier, OR its horizontal position is at or beyond a
field edge, OR its riding status differs from its being in the hazard
band (exclusive-or): not riding inside the band is a loss, and riding
outside the band is a loss as well. -/
theorem c1_loss_condition_amended (s : State) :
    (handleCollisions s).gameOver = true ↔
      FrogCollidedP s ∨ FrogOutsideP s ∨
        (RidesP s ∧ ¬ InBandP s) ∨ (¬ RidesP s ∧ InBandP s) := by
  rw [handleCollisions_gameOver]
  simp only [Bool.or_eq_true]
  rw [frogCollided_iff, frogOutside_iff, frogInRiverAndPlank_iff]
  rw [or_assoc]

/-- C1 witness: the amended loss rule applied at the riding-outside-band
state declares the loss through the exclusive-or disjunct. -/
theorem c1_witness : (handleCollisions sRideOut).gameOver = true :=
  (c1_loss_condition_amended sRideOut).mpr
    (Or.inr (Or.inr (Or.inl
      ⟨by with_unfolding_all decide, by with_unfolding_all decide⟩)))

end Frogger

namespace Frogger

/-! ### C9 — goal monotonicity: helper lemmas -/

/-- Every factory goal has radius 20. -/
theorem startGoal_radius_20 : ∀ g ∈ startGoal, g.radius = 20 := by
  with_unfolding_all decide

/-- The factory goal ids are pairwise distinct. -/
theorem startGoal_ids_nodup : (startGoal.map Body.id).Nodup := by
  with_unfolding_all decide

/-- Members of the factory goal list are indexed factory goals. -/
theorem mem_startGoal_exists {g : Body} (hg : g ∈ startGoal) :
    ∃ i : ℕ, i < NumberGoal ∧ g = createGoal i := by
  unfold startGoal at hg
  rw [List.mem_map] at hg
  obtain ⟨i, hi, rfl⟩ := hg
  exact ⟨i, List.mem_range.mp hi, rfl⟩

/-- Squared-distance reading of a successful ride test. -/
theorem bodiesRide_spec (f g : Body) (h : bodiesRide f g = true) :
    (f.pos.x - g.pos.x) * (f.pos.x - g.pos.x) +
      (f.pos.y - g.pos.y) * (f.pos.y - g.pos.y) <
      (f.radius - 7 + g.radius) * (f.radius - 7 + g.radius) := by
  unfold bodiesRide Vec.lenLt Vec.sub Vec.add Vec.scale at h
  simp only [Bool.and_eq_true, decide_eq_true_eq] at h
  obtain ⟨-, hd⟩ := h
  nlinarith [hd]

/-- Two distinct factory goal columns are 100 apart, so no point is
within ride distance 33 of both. -/
theorem goal_band_separation (i j : ℕ) (hij : i ≠ j) (px py : ℚ)
    (h₁ : (px - 100 * ((i : ℚ) + 1)) * (px - 100 * ((i : ℚ) + 1)) +
      (py - 50) * (py - 50) < 33 * 33)
    (h₂ : (px - 100 * ((j : ℚ) + 1)) * (px - 100 * ((j : ℚ) + 1)) +
      (py - 50) * (py - 50) < 33 * 33) : False := by
  have hz : ((i : ℤ) - (j : ℤ)) ≠ 0 := by
    intro hc
    apply hij
    omega
  have h1le : (1 : ℤ) ≤ ((i : ℤ) - (j : ℤ)) * ((i : ℤ) - (j : ℤ)) := by
    rcases lt_or_gt_of_ne hz with h | h
    · nlinarith
    · nlinarith
  have hQ : (1 : ℚ) ≤ ((i : ℚ) - (j : ℚ)) * ((i : ℚ) - (j : ℚ)) := by
    exact_mod_cast h1le
  nlinarith [sq_nonneg ((px - 100 * ((i : ℚ) + 1)) + (px - 100 * ((j : ℚ) + 1))),
    sq_nonneg (py - 50), hQ, h₁, h₂]

/-- A radius-20 agent can be within ride distance of at most one factory
goal. -/
theorem startGoal_ride_unique {f : Body} (hf : f.radius = 20) {g₁ g₂ : Body}
    (h₁ : g₁ ∈ startGoal) (h₂ : g₂ ∈ startGoal)
    (r₁ : bodiesRide f g₁ = true) (r₂ : bodiesRide f g₂ = true) : g₁ = g₂ := by
  obtain ⟨i, hi, rfl⟩ := mem_startGoal_exists h₁
  obtain ⟨j, hj, rfl⟩ := mem_startGoal_exists h₂
  rcases eq_or_ne i j with h | h
  · rw [h]
  · exfalso
    have d₁ := bodiesRide_spec f (createGoal i) r₁
    have d₂ := bodiesRide_spec f (createGoal j) r₂
    rw [hf] at d₁ d₂
    simp only [createGoal] at d₁ d₂
    exact goal_band_separation i j h f.pos.x f.pos.y (by nlinarith [d₁]) (by nlinarith [d₂])

/-- The goal-list invariant maintained by the reducer: the live goals are
a sublist of the factory goals and the agent keeps its factory radius. -/
def GoalInv (s : State) : Prop :=
  s.goals.Sublist startGoal ∧ s.frog.radius = 20

/-- Kinematics never changes a body's radius. -/
theorem moveBody_radius (o : Body) : (moveBody o).radius = o.radius := rfl

/-- The pre-collision state of a tick keeps the agent's radius. -/
theorem tickPre_frog_radius (s : State) (e : Option ℚ) :
    (tickPre s e).frog.radius = s.frog.radius := by
  unfold tickPre
  split <;> rfl

/-- The rule engine keeps the agent's radius. -/
theorem handleCollisions_frog_radius (s : State) :
    (handleCollisions s).frog.radius = s.frog.radius := by
  unfold handleCollisions
  dsimp only
  split <;> rfl

/-- The cut list is a sublist of the original. -/
theorem exceptById_sublist (a b : List Body) : (exceptById a b).Sublist a :=
  List.filter_sublist _

/-- The cut list is no longer than the original. -/
theorem exceptById_length_le (a b : List Body) :
    (exceptById a b).length ≤ a.length :=
  List.length_filter_le _ _

/-- A tick never grows the goal list. -/
theorem tick_goals_le (s : State) (e : Option ℚ) :
    (tick s e).goals.length ≤ s.goals.length := by
  unfold tick
  rw [handleCollisions_goals]
  calc (exceptById (tickPre s e).goals (goalsCollide (tickPre s e))).length
      ≤ (tickPre s e).goals.length := exceptById_length_le _ _
    _ = s.goals.length := by rw [tickPre_goals]

/-- A non-over move keeps the goal list. -/
theorem reduceState_move_goals (s : State) (d : String) (h : s.gameOver = false) :
    (reduceState s (.move d)).goals = s.goals := by
  unfold reduceState
  rw [h]
  simp

/-- A non-over move keeps the agent's radius. -/
theorem reduceState_move_frog_radius (s : State) (d : String) (h : s.gameOver = false) :
    (reduceState s (.move d)).frog.radius = s.frog.radius := by
  unfold reduceState
  rw [h]
  simp

/-- A tick preserves the goal-list invariant. -/
theorem tick_goalInv (s : State) (e : Option ℚ) (h : GoalInv s) :
    GoalInv (tick s e) := by
  obtain ⟨hsub, hrad⟩ := h
  constructor
  · unfold tick
    rw [handleCollisions_goals]
    exact (exceptById_sublist _ _).trans
      (by rw [tickPre_goals]; exact hsub)
  · unfold tick
    rw [handleCollisions_frog_radius, tickPre_frog_radius, hrad]

/-- Every reducer step preserves the goal-list invariant. -/
theorem goalInv_preserved (s : State) (e : GameEvent) (h : GoalInv s) :
    GoalInv (reduceState s e) := by
  obtain ⟨hsub, hrad⟩ := h
  match e with
  | .move d =>
    rcases hg : s.gameOver
    · constructor
      · rw [reduceState_move_goals s d hg]
        exact hsub
      · rw [reduceState_move_frog_radius s d hg]
        exact hrad
    · rw [reduceState_move_of_gameOver s d hg]
      constructor
      · rw [handleCollisions_goals]
        exact (exceptById_sublist _ _).trans hsub
      · rw [handleCollisions_frog_radius]
        exact hrad
  | .restart =>
    constructor
    · show startGoal.Sublist startGoal
      exact List.Sublist.refl _
    · rfl
  | .jump => exact ⟨hsub, hrad⟩
  | .tickEv t => exact tick_goalInv s (some t) ⟨hsub, hrad⟩

/-- A nonempty duplicate-free list all of whose members equal `g` is
exactly `[g]`. -/
theorem nodup_all_eq_singleton {g : Body} {m : List Body} (hm : m.Nodup)
    (hall : ∀ x ∈ m, x = g) (hne : m ≠ []) : m = [g] := by
  cases m with
  | nil => exact absurd rfl hne
  | cons a t =>
    have ha : a = g := hall a (List.mem_cons_self a t)
    cases t with
    | nil => rw [ha]
    | cons b t' =>
      exfalso
      have hb : b = g := hall b (by simp)
      rw [List.nodup_cons] at hm
      exact hm.1 (by rw [ha, ← hb]; simp)

/-- The goal ids of an invariant state are pairwise distinct. -/
theorem goalInv_ids_nodup (s : State) (h : GoalInv s) :
    (s.goals.map Body.id).Nodup :=
  List.Nodup.sublist (h.1.map Body.id) startGoal_ids_nodup

/-- Under the invariant, a positive score test pins the collided-goal
list to one single goal. -/
theorem goalsCollide_eq_singleton (s : State) (hInv : GoalInv s)
    (hsp : scorePoint s = true) :
    ∃ g, goalsCollide s = [g] ∧ g ∈ s.goals := by
  obtain ⟨hsub, hrad⟩ := hInv
  have hne : goalsCollide s ≠ [] := by
    unfold scorePoint at hsp
    rw [decide_eq_true_eq] at hsp
    exact List.length_pos.mp hsp
  obtain ⟨g, hgmem⟩ := List.exists_mem_of_ne_nil (goalsCollide s) hne
  have hg' := List.mem_filter.mp hgmem
  have huniq : ∀ x ∈ goalsCollide s, x = g := by
    intro x hx
    have hx' := List.mem_filter.mp hx
    exact startGoal_ride_unique hrad (hsub.subset hx'.1) (hsub.subset hg'.1)
      hx'.2 hg'.2
  have hnodup : (goalsCollide s).Nodup :=
    (List.Nodup.of_map Body.id (goalInv_ids_nodup s ⟨hsub, hrad⟩)).filter _
  exact ⟨g, nodup_all_eq_singleton hnodup huniq hne, hg'.1⟩

/-- Cutting one member of a list with pairwise-distinct ids removes
exactly that member. -/
theorem exceptById_singleton_length {l : List Body} {g : Body}
    (hid : (l.map Body.id).Nodup) (hg : g ∈ l) :
    (exceptById l [g]).length + 1 = l.length := by
  induction l with
  | nil => exact absurd hg (List.not_mem_nil g)
  | cons a t ih =>
    rw [List.map_cons, List.nodup_cons] at hid
    rcases List.mem_cons.mp hg with hag | hgt
    · subst hag
      unfold exceptById elemById
      rw [List.filter_cons]
      have hpa : (!List.any [g] fun b => g.id == b.id) = false := by simp
      rw [if_neg (by rw [hpa]; exact Bool.false_ne_true)]
      have hkeep : (t.filter fun x => !List.any [g] fun b => x.id == b.id) = t := by
        apply List.filter_eq_self.mpr
        intro x hx
        have hxid : x.id ≠ g.id := by
          intro he
          exact hid.1 (he ▸ List.mem_map_of_mem Body.id hx)
        simp [hxid]
      rw [hkeep, List.length_cons]
    · have hne : a.id ≠ g.id := by
        intro he
        exact hid.1 (by rw [he]; exact List.mem_map_of_mem Body.id hgt)
      unfold exceptById elemById at ih ⊢
      rw [List.filter_cons]
      have hpa : (!List.any [g] fun b => a.id == b.id) = true := by simp [hne]
      rw [if_pos hpa]
      simp only [List.length_cons]
      have := ih hid.2 hgt
      omega

/-- Under the invariant, a rule-engine pickup removes exactly one goal. -/
theorem handleCollisions_pickup_length (s : State) (hInv : GoalInv s)
    (hsp : scorePoint s = true) :
    (handleCollisions s).goals.length + 1 = s.goals.length := by
  obtain ⟨g, hgc, hgmem⟩ := goalsCollide_eq_singleton s hInv hsp
  rw [handleCollisions_goals, hgc]
  exact exceptById_singleton_length (goalInv_ids_nodup s hInv) hgmem

end Frogger

namespace Frogger

/-- C9: the goal list never grows under any non-restart event; the
reducer preserves the goal-list invariant (live goals form a sublist of
the factory goals, so goals are never re-added except by `Restart`),
the invariant holds initially, and in any tick in which a pickup is
detected the goal list shrinks by exactly one while the collided goals
move to the departed list. -/
theorem c9_goal_monotonicity :
    (∀ (s : State) (e : GameEvent), e ≠ GameEvent.restart →
      (reduceState s e).goals.length ≤ s.goals.length) ∧
    (∀ (s : State) (e : GameEvent), GoalInv s → GoalInv (reduceState s e)) ∧
    GoalInv initialState ∧
    (∀ (s : State) (t : ℚ), GoalInv s →
      scorePoint (tickPre s (some t)) = true →
      (reduceState s (.tickEv t)).goals.length + 1 = s.goals.length ∧
      (reduceState s (.tickEv t)).exit =
        s.exit ++ goalsCollide (tickPre s (some t))) := by
  refine ⟨?_, goalInv_preserved, ⟨List.Sublist.refl _, rfl⟩, ?_⟩
  · intro s e he
    match e with
    | .move d =>
      rcases hg : s.gameOver
      · rw [reduceState_move_goals s d hg]
      · rw [reduceState_move_of_gameOver s d hg, handleCollisions_goals]
        exact exceptById_length_le _ _
    | .restart => exact absurd rfl he
    | .jump => exact le_refl _
    | .tickEv t =>
      rw [reduceState_tickEv]
      exact tick_goals_le s (some t)
  · intro s t hInv hsp
    have hmidInv : GoalInv (tickPre s (some t)) := by
      constructor
      · rw [tickPre_goals]
        exact hInv.1
      · rw [tickPre_frog_radius]
        exact hInv.2
    constructor
    · rw [reduceState_tickEv]
      unfold tick
      have hlen := handleCollisions_pickup_length (tickPre s (some t)) hmidInv hsp
      rw [tickPre_goals] at hlen
      exact hlen
    · rw [reduceState_tickEv]
      unfold tick
      rw [handleCollisions_exit, tickPre_exit]

/-- C9 witness: from the invariant state whose agent stands on the first
goal, the tick detects a pickup and the goal list shrinks from five to
four. -/
theorem c9_witness :
    (reduceState sGoalRide (.tickEv 0)).goals.length + 1 = sGoalRide.goals.length ∧
    sGoalRide.goals.length = 5 :=
  ⟨(c9_goal_monotonicity.2.2.2 sGoalRide 0 ⟨List.Sublist.refl _, rfl⟩
      (by with_unfolding_all decide)).1,
    by with_unfolding_all decide⟩

end Frogger
